import Mathlib

/-!
Shallow embedding of `na-winit-wgpu/src/lib.rs`: the winit/wgpu lifecycle
orchestrator (`App` struct, its methods, and the `run` event-loop match).

GPU objects (windows, surfaces, adapters, devices, queues, shaders, pipeline
layouts, pipelines) are modelled by freshly allocated natural-number handles,
so that handle identity and reuse across suspend/resume cycles is observable.
Side effects on the GPU backend (adapter/device requests, swapchain
configuration, command submission, presentation, redraw scheduling) are
recorded in an explicit effects log.
-/

namespace NaWinitWgpu

/-- Model of `wgpu::TextureFormat`: an identifying code plus its sRGB flag
(the only property the source inspects, via `TextureFormat::is_srgb`). -/
structure TextureFormat where
  code : Nat
  srgb : Bool
deriving DecidableEq, Repr

/-- `TextureFormat::is_srgb` from wgpu, as used at lib.rs:185. -/
def TextureFormat.is_srgb (f : TextureFormat) : Bool := f.srgb

/-- Model of `wgpu::PresentMode` (the source mentions Fifo and Mailbox). -/
inductive PresentMode where
  | Fifo
  | Mailbox
  | Immediate
deriving DecidableEq, Repr

/-- Model of `wgpu::CompositeAlphaMode` (the source mentions Inherit and Opaque). -/
inductive CompositeAlphaMode where
  | Inherit
  | Opaque
  | Auto
deriving DecidableEq, Repr

/-- Model of `wgpu::TextureUsages` as used by the source (only RENDER_ATTACHMENT). -/
inductive TextureUsage where
  | RENDER_ATTACHMENT
deriving DecidableEq, Repr

/-- Model of `wgpu::Color` (f64 channels; the source only uses the exact
constant `Color::GREEN`, representable exactly as rationals). -/
structure Color where
  r : ℚ
  g : ℚ
  b : ℚ
  a : ℚ
deriving DecidableEq, Repr

/-- `wgpu::Color::GREEN` = { r: 0.0, g: 1.0, b: 0.0, a: 1.0 }. -/
def Color.GREEN : Color := { r := 0, g := 1, b := 0, a := 1 }

/-- Model of `wgpu::SurfaceConfiguration` as built at lib.rs:200-211. -/
structure SurfaceConfiguration where
  usage : TextureUsage
  format : TextureFormat
  width : Nat
  height : Nat
  desired_maximum_frame_latency : Nat
  present_mode : PresentMode
  view_formats : List TextureFormat
  alpha_mode : CompositeAlphaMode
deriving DecidableEq, Repr

/-- Model of the `wgpu::RenderPipeline` built at lib.rs:123-140: its handle,
its layout handle, the number of vertex buffers declared (`buffers: &[]`,
hence 0), and its single fragment color target format. -/
structure RenderPipelineDesc where
  id : Nat
  layout : Nat
  vertex_buffer_count : Nat
  fragment_target : TextureFormat
deriving DecidableEq, Repr

/-- The `RenderState` struct (lib.rs:20-27): device, queue, shader,
chosen target format, pipeline layout and render pipeline. -/
structure RenderState where
  device : Nat
  queue : Nat
  shader : Nat
  target_format : TextureFormat
  pipeline_layout : Nat
  render_pipeline : RenderPipelineDesc
deriving DecidableEq, Repr

/-- The `SurfaceState` struct (lib.rs:29-32): window handle and surface handle. -/
structure SurfaceState where
  window : Nat
  surface : Nat
deriving DecidableEq, Repr

/-- The mutable fields of the `App` struct (lib.rs:34-41). The `instance`
field is stateless configuration and is not modelled. -/
structure App where
  adapter : Option Nat
  surface_state : Option SurfaceState
  render_state : Option RenderState
deriving DecidableEq, Repr

/-- The environment the windowing system and GPU backend provide: the
window's current inner size, and the surface-capability format list that
`surface.get_capabilities(adapter).formats` returns (lib.rs:179). -/
structure World where
  window_size : Nat × Nat
  formats : List TextureFormat
deriving DecidableEq, Repr

/-- One recorded frame: the command buffer built and submitted by
`App::render` (lib.rs:234-267). -/
structure Frame where
  device : Nat
  queue : Nat
  clear_color : Color
  store : Bool
  pipeline : RenderPipelineDesc
  vertex_range : Nat × Nat
  instance_range : Nat × Nat
  vertex_buffers_set : Nat
deriving DecidableEq, Repr

/-- GPU-facing operations of the redraw path, in the order the source
issues them (acquire, submit, present). -/
inductive GpuOp where
  | acquireTexture (surface : Nat)
  | submit (f : Frame)
  | present (surface : Nat)
deriving DecidableEq, Repr

/-- One call to `surface.configure(&device, &config)` (lib.rs:214-216). -/
structure ConfigureCall where
  device : Nat
  surface : Nat
  config : SurfaceConfiguration
deriving DecidableEq, Repr

/-- The observable side effects of a run, most recent first for the lists. -/
structure Effects where
  adapter_requests : Nat
  device_requests : Nat
  shader_compiles : Nat
  pipeline_builds : Nat
  configures : List ConfigureCall
  gpu_ops : List GpuOp
  redraw_requests : Nat
  exited : Bool
deriving DecidableEq, Repr

/-- The frames submitted to the queue, most recent first. -/
def Effects.submits (e : Effects) : List Frame :=
  e.gpu_ops.filterMap (fun op =>
    match op with
    | GpuOp.submit f => some f
    | _ => none)

/-- Complete system state: the `App`, the environment, the effect log, and
a fresh-handle counter (every allocated handle is strictly below it). -/
structure Sys where
  app : App
  world : World
  effects : Effects
  next_id : Nat
deriving DecidableEq, Repr

/-- `App::create_surface` (lib.rs:55-81): builds a new window and surface
and overwrites `self.surface_state` unconditionally. -/
def create_surface (s : Sys) : Sys :=
  { s with
    app := { s.app with surface_state := some ⟨s.next_id, s.next_id + 1⟩ },
    next_id := s.next_id + 2 }

/-- The `if self.adapter.is_none() { ... request_adapter ... }` block of
`App::ensure_render_state_for_surface` (lib.rs:160-174). -/
def request_adapter_if_needed (s : Sys) : Sys :=
  match s.app.adapter with
  | some _ => s
  | none =>
    { s with
      app := { s.app with adapter := some s.next_id },
      next_id := s.next_id + 1,
      effects := { s.effects with
        adapter_requests := s.effects.adapter_requests + 1 } }

/-- The swapchain format selection at lib.rs:181-186:
`formats.iter().copied().find(|f| f.is_srgb()).unwrap_or(formats[0])`.
Rust's `unwrap_or` evaluates `formats[0]` eagerly, so an empty capability
list panics (modelled as `none`) regardless of the `find` result. -/
def swapchain_format_choice (formats : List TextureFormat) : Option TextureFormat :=
  match formats with
  | [] => none
  | f0 :: rest => some (((f0 :: rest).find? (fun f => f.is_srgb)).getD f0)

/-- `App::init_render_state` (lib.rs:83-150): requests a device and queue,
compiles the shader, builds the pipeline layout (no bind groups) and the
render pipeline whose only color target is `target_format`, and stores
everything (including `target_format`) in a fresh `RenderState`. -/
def build_render_state (fmt : TextureFormat) (s : Sys) : Sys :=
  { s with
    app := { s.app with
      render_state := some
        { device := s.next_id
          queue := s.next_id + 1
          shader := s.next_id + 2
          target_format := fmt
          pipeline_layout := s.next_id + 3
          render_pipeline :=
            { id := s.next_id + 4
              layout := s.next_id + 3
              vertex_buffer_count := 0
              fragment_target := fmt } } },
    next_id := s.next_id + 5,
    effects := { s.effects with
      device_requests := s.effects.device_requests + 1,
      shader_compiles := s.effects.shader_compiles + 1,
      pipeline_builds := s.effects.pipeline_builds + 1 } }

/-- `App::ensure_render_state_for_surface` (lib.rs:158-192): does nothing
without a surface; otherwise requests an adapter if none is held, then, if
`render_state` is `None`, picks the swapchain format from the surface
capabilities and builds the render state. -/
def ensure_render_state_for_surface (s : Sys) : Option Sys :=
  match s.app.surface_state with
  | none => some s
  | some _ =>
    let s1 := request_adapter_if_needed s
    match s1.app.render_state with
    | some _ => some s1
    | none =>
      match swapchain_format_choice s1.world.formats with
      | none => none
      | some fmt => some (build_render_state fmt s1)

/-- The `wgpu::SurfaceConfiguration` literal of lib.rs:200-211, as a
function of the chosen format and the window's current inner size. -/
def surface_configuration (fmt : TextureFormat) (size : Nat × Nat) : SurfaceConfiguration :=
  { usage := TextureUsage.RENDER_ATTACHMENT
    format := fmt
    width := size.1
    height := size.2
    desired_maximum_frame_latency := 2
    present_mode := PresentMode.Fifo
    view_formats := [fmt]
    alpha_mode := CompositeAlphaMode.Inherit }

/-- `App::configure_surface_swapchain` (lib.rs:194-218): only acts when
both a render state and a surface state exist; then derives the config from
the cached `target_format` and the current window size and applies it. -/
def configure_surface_swapchain (s : Sys) : Sys :=
  match s.app.render_state, s.app.surface_state with
  | some rs, some ss =>
    { s with effects := { s.effects with
        configures :=
          ⟨rs.device, ss.surface,
            surface_configuration rs.target_format s.world.window_size⟩
            :: s.effects.configures } }
  | _, _ => s

/-- `App::queue_redraw` (lib.rs:220-225): requests a redraw iff a surface
state exists. -/
def queue_redraw (s : Sys) : Sys :=
  match s.app.surface_state with
  | some _ =>
    { s with effects := { s.effects with
        redraw_requests := s.effects.redraw_requests + 1 } }
  | none => s

/-- `App::resume` (lib.rs:227-232): create a surface (unconditionally),
ensure the render state, configure the swapchain, queue a redraw. -/
def resume (s : Sys) : Option Sys :=
  (ensure_render_state_for_surface (create_surface s)).map
    (fun s1 => queue_redraw (configure_surface_swapchain s1))

/-- `App::render` (lib.rs:234-273): only when both a surface state and a
render state exist, acquire the next texture, record one command buffer
with a single render pass that clears to `Color::GREEN`, sets the pipeline
and draws vertices `0..3`, instances `0..1` with no vertex buffer bound,
submit it, and present the frame. -/
def render (s : Sys) : Sys :=
  match s.app.surface_state, s.app.render_state with
  | some ss, some rs =>
    { s with effects := { s.effects with
        gpu_ops :=
          GpuOp.present ss.surface
            :: GpuOp.submit
                { device := rs.device
                  queue := rs.queue
                  clear_color := Color.GREEN
                  store := true
                  pipeline := rs.render_pipeline
                  vertex_range := (0, 3)
                  instance_range := (0, 1)
                  vertex_buffers_set := 0 }
            :: GpuOp.acquireTexture ss.surface
            :: s.effects.gpu_ops } }
  | _, _ => s

/-- The platform events the `run` match at lib.rs:282-346 handles with
state-affecting arms. `resized` carries the new window size installed by
the windowing system before the handler runs (the handler itself ignores
the event payload and rereads `window.inner_size()`). -/
inductive Event where
  | resumed
  | suspended
  | resized (width height : Nat)
  | redrawRequested
  | closeRequested
deriving DecidableEq, Repr

/-- One turn of the `run` event-loop match (lib.rs:282-346). `none` models
a panic (the only data-dependent panic is indexing an empty surface-format
list during render-state construction). -/
def step (e : Event) (s : Sys) : Option Sys :=
  match e with
  | Event.resumed => resume s
  | Event.suspended =>
    some { s with app := { s.app with render_state := none } }
  | Event.resized w h =>
    let s1 := { s with world := { s.world with window_size := (w, h) } }
    some (queue_redraw (configure_surface_swapchain s1))
  | Event.redrawRequested => some (render s)
  | Event.closeRequested =>
    some { s with effects := { s.effects with exited := true } }

/-- Process a list of events in order. -/
def processEvents (evs : List Event) (s : Sys) : Option Sys :=
  match evs with
  | [] => some s
  | e :: rest => (step e s).bind (processEvents rest)

/-- The empty effects log. -/
def initEffects : Effects :=
  { adapter_requests := 0
    device_requests := 0
    shader_compiles := 0
    pipeline_builds := 0
    configures := []
    gpu_ops := []
    redraw_requests := 0
    exited := false }

/-- `App::new` (lib.rs:44-53): all optional fields start `None`. -/
def initApp : App :=
  { adapter := none, surface_state := none, render_state := none }

/-- Initial system state for a given environment. -/
def initSys (w : World) : Sys :=
  { app := initApp, world := w, effects := initEffects, next_id := 0 }

/-- Run an event sequence from the initial state. -/
def runEvents (w : World) (evs : List Event) : Option Sys :=
  processEvents evs (initSys w)

/-- The spec's format-selection rule, stated in the spec's own words:
the first sRGB-encoded format of the advertised list when one exists,
otherwise the first advertised format. -/
def spec_format_choice (formats : List TextureFormat) : Option TextureFormat :=
  match formats.filter (fun f => f.is_srgb) with
  | f :: _ => some f
  | [] => formats.head?

/-- A non-sRGB and an sRGB format, and a concrete environment used for
witnesses and counterexamples. -/
def fmtBgra8Unorm : TextureFormat := ⟨0, false⟩

/-- An sRGB-encoded format for the concrete environment. -/
def fmtBgra8UnormSrgb : TextureFormat := ⟨1, true⟩

/-- Concrete environment: a 100×100 window whose surface advertises a
non-sRGB format first and an sRGB format second. -/
def w0 : World := { window_size := (100, 100), formats := [fmtBgra8Unorm, fmtBgra8UnormSrgb] }

/-- Initial state over the concrete environment. -/
def S0 : Sys := initSys w0

/-- State after one Resume over the concrete environment. -/
def S1 : Sys := (runEvents w0 [Event.resumed]).getD S0

/-- State after Resume then Suspend over the concrete environment. -/
def S2 : Sys := (runEvents w0 [Event.resumed, Event.suspended]).getD S0

/-- State after Resume, Suspend, Resume over the concrete environment. -/
def S3 : Sys := (runEvents w0 [Event.resumed, Event.suspended, Event.resumed]).getD S0

/-- State after Resume then Resize(800,600) over the concrete environment. -/
def S4 : Sys := (runEvents w0 [Event.resumed, Event.resized 800 600]).getD S0

/-- State after Resume, Suspend, Resize(800,600) over the concrete environment. -/
def S5 : Sys :=
  (runEvents w0 [Event.resumed, Event.suspended, Event.resized 800 600]).getD S0

/-- State after Resume then RedrawRequested over the concrete environment. -/
def S6 : Sys := (runEvents w0 [Event.resumed, Event.redrawRequested]).getD S0

/-- State after two consecutive Resume events over the concrete environment. -/
def S7 : Sys := (runEvents w0 [Event.resumed, Event.resumed]).getD S0

/-- Handle-freshness and format-coherence invariant: every handle held by
the app or recorded in a configure call is below the allocation counter;
every configure call recorded against the device of the currently held
render state used its cached format; any two configure calls against the
same device used the same format; and every recorded configuration is the
literal of lib.rs:200-211 for some format and size. -/
structure SysInv (s : Sys) : Prop where
  rs_lt : ∀ rs, s.app.render_state = some rs → rs.device < s.next_id
  ss_lt : ∀ ss, s.app.surface_state = some ss →
    ss.window < s.next_id ∧ ss.surface < s.next_id
  ad_lt : ∀ a, s.app.adapter = some a → a < s.next_id
  cfg_lt : ∀ c ∈ s.effects.configures, c.device < s.next_id
  cfg_cur : ∀ rs, s.app.render_state = some rs →
    ∀ c ∈ s.effects.configures, c.device = rs.device →
      c.config.format = rs.target_format
  cfg_pair : ∀ c1 ∈ s.effects.configures, ∀ c2 ∈ s.effects.configures,
    c1.device = c2.device → c1.config.format = c2.config.format
  cfg_shape : ∀ c ∈ s.effects.configures,
    ∃ fmt sz, c.config = surface_configuration fmt sz

/-! ### Equation and projection lemmas for the embedded methods -/

lemma configure_ready {s : Sys} {rs : RenderState} {ss : SurfaceState}
    (h1 : s.app.render_state = some rs) (h2 : s.app.surface_state = some ss) :
    configure_surface_swapchain s =
      { s with effects := { s.effects with
          configures :=
            ⟨rs.device, ss.surface,
              surface_configuration rs.target_format s.world.window_size⟩
              :: s.effects.configures } } := by
  simp only [configure_surface_swapchain, h1, h2]

lemma configure_no_render {s : Sys} (h : s.app.render_state = none) :
    configure_surface_swapchain s = s := by
  simp only [configure_surface_swapchain, h]

lemma configure_no_surface {s : Sys} (h : s.app.surface_state = none) :
    configure_surface_swapchain s = s := by
  cases hrs : s.app.render_state <;>
    simp only [configure_surface_swapchain, h, hrs]

lemma configure_app (s : Sys) : (configure_surface_swapchain s).app = s.app := by
  cases hrs : s.app.render_state <;> cases hss : s.app.surface_state <;>
    simp only [configure_surface_swapchain, hrs, hss]

lemma configure_world (s : Sys) : (configure_surface_swapchain s).world = s.world := by
  cases hrs : s.app.render_state <;> cases hss : s.app.surface_state <;>
    simp only [configure_surface_swapchain, hrs, hss]

lemma configure_next_id (s : Sys) :
    (configure_surface_swapchain s).next_id = s.next_id := by
  cases hrs : s.app.render_state <;> cases hss : s.app.surface_state <;>
    simp only [configure_surface_swapchain, hrs, hss]

lemma configure_builds (s : Sys) :
    (configure_surface_swapchain s).effects.pipeline_builds
      = s.effects.pipeline_builds := by
  cases hrs : s.app.render_state <;> cases hss : s.app.surface_state <;>
    simp only [configure_surface_swapchain, hrs, hss]

lemma configure_adapter_requests (s : Sys) :
    (configure_surface_swapchain s).effects.adapter_requests
      = s.effects.adapter_requests := by
  cases hrs : s.app.render_state <;> cases hss : s.app.surface_state <;>
    simp only [configure_surface_swapchain, hrs, hss]

lemma queue_redraw_some {s : Sys} {ss : SurfaceState}
    (h : s.app.surface_state = some ss) :
    queue_redraw s = { s with effects := { s.effects with
      redraw_requests := s.effects.redraw_requests + 1 } } := by
  simp only [queue_redraw, h]

lemma queue_redraw_none {s : Sys} (h : s.app.surface_state = none) :
    queue_redraw s = s := by
  simp only [queue_redraw, h]

lemma queue_redraw_app (s : Sys) : (queue_redraw s).app = s.app := by
  cases hss : s.app.surface_state <;> simp only [queue_redraw, hss]

lemma queue_redraw_world (s : Sys) : (queue_redraw s).world = s.world := by
  cases hss : s.app.surface_state <;> simp only [queue_redraw, hss]

lemma queue_redraw_next_id (s : Sys) : (queue_redraw s).next_id = s.next_id := by
  cases hss : s.app.surface_state <;> simp only [queue_redraw, hss]

lemma queue_redraw_configures (s : Sys) :
    (queue_redraw s).effects.configures = s.effects.configures := by
  cases hss : s.app.surface_state <;> simp only [queue_redraw, hss]

lemma queue_redraw_builds (s : Sys) :
    (queue_redraw s).effects.pipeline_builds = s.effects.pipeline_builds := by
  cases hss : s.app.surface_state <;> simp only [queue_redraw, hss]

lemma queue_redraw_adapter_requests (s : Sys) :
    (queue_redraw s).effects.adapter_requests = s.effects.adapter_requests := by
  cases hss : s.app.surface_state <;> simp only [queue_redraw, hss]

lemma raif_adapter_some {s : Sys} {a : Nat} (h : s.app.adapter = some a) :
    request_adapter_if_needed s = s := by
  simp only [request_adapter_if_needed, h]

lemma raif_adapter_none {s : Sys} (h : s.app.adapter = none) :
    request_adapter_if_needed s =
      { s with
        app := { s.app with adapter := some s.next_id },
        next_id := s.next_id + 1,
        effects := { s.effects with
          adapter_requests := s.effects.adapter_requests + 1 } } := by
  simp only [request_adapter_if_needed, h]

lemma raif_render (s : Sys) :
    (request_adapter_if_needed s).app.render_state = s.app.render_state := by
  cases h : s.app.adapter <;> simp only [request_adapter_if_needed, h]

lemma raif_surface (s : Sys) :
    (request_adapter_if_needed s).app.surface_state = s.app.surface_state := by
  cases h : s.app.adapter <;> simp only [request_adapter_if_needed, h]

lemma raif_world (s : Sys) :
    (request_adapter_if_needed s).world = s.world := by
  cases h : s.app.adapter <;> simp only [request_adapter_if_needed, h]

lemma raif_next_id_ge (s : Sys) :
    s.next_id ≤ (request_adapter_if_needed s).next_id := by
  cases h : s.app.adapter <;> simp only [request_adapter_if_needed, h] <;> omega

lemma raif_builds (s : Sys) :
    (request_adapter_if_needed s).effects.pipeline_builds
      = s.effects.pipeline_builds := by
  cases h : s.app.adapter <;> simp only [request_adapter_if_needed, h]

lemma raif_configures (s : Sys) :
    (request_adapter_if_needed s).effects.configures = s.effects.configures := by
  cases h : s.app.adapter <;> simp only [request_adapter_if_needed, h]

lemma raif_adapter_mono {s : Sys} {a : Nat} (h : s.app.adapter = some a) :
    (request_adapter_if_needed s).app.adapter = some a := by
  simp only [request_adapter_if_needed, h]

lemma render_not_ready {s : Sys}
    (h : s.app.surface_state = none ∨ s.app.render_state = none) :
    render s = s := by
  rcases h with h | h
  · simp only [render, h]
  · cases hss : s.app.surface_state <;> simp only [render, hss, h]

lemma create_app_surface (s : Sys) :
    (create_surface s).app.surface_state = some ⟨s.next_id, s.next_id + 1⟩ := rfl

lemma create_app_render (s : Sys) :
    (create_surface s).app.render_state = s.app.render_state := rfl

lemma create_app_adapter (s : Sys) :
    (create_surface s).app.adapter = s.app.adapter := rfl

lemma create_world (s : Sys) : (create_surface s).world = s.world := rfl

lemma create_next_id (s : Sys) : (create_surface s).next_id = s.next_id + 2 := rfl

lemma create_effects (s : Sys) : (create_surface s).effects = s.effects := rfl

lemma build_app_surface (fmt : TextureFormat) (s : Sys) :
    (build_render_state fmt s).app.surface_state = s.app.surface_state := rfl

lemma build_app_adapter (fmt : TextureFormat) (s : Sys) :
    (build_render_state fmt s).app.adapter = s.app.adapter := rfl

lemma build_app_render (fmt : TextureFormat) (s : Sys) :
    (build_render_state fmt s).app.render_state = some
      { device := s.next_id
        queue := s.next_id + 1
        shader := s.next_id + 2
        target_format := fmt
        pipeline_layout := s.next_id + 3
        render_pipeline :=
          { id := s.next_id + 4
            layout := s.next_id + 3
            vertex_buffer_count := 0
            fragment_target := fmt } } := rfl

lemma build_world (fmt : TextureFormat) (s : Sys) :
    (build_render_state fmt s).world = s.world := rfl

lemma build_next_id (fmt : TextureFormat) (s : Sys) :
    (build_render_state fmt s).next_id = s.next_id + 5 := rfl

lemma build_builds (fmt : TextureFormat) (s : Sys) :
    (build_render_state fmt s).effects.pipeline_builds
      = s.effects.pipeline_builds + 1 := rfl

lemma build_configures (fmt : TextureFormat) (s : Sys) :
    (build_render_state fmt s).effects.configures = s.effects.configures := rfl

lemma build_adapter_requests (fmt : TextureFormat) (s : Sys) :
    (build_render_state fmt s).effects.adapter_requests
      = s.effects.adapter_requests := rfl

lemma ensure_no_surface {s : Sys} (h : s.app.surface_state = none) :
    ensure_render_state_for_surface s = some s := by
  simp only [ensure_render_state_for_surface, h]

lemma ensure_render_some {s : Sys} {ss : SurfaceState} {rs : RenderState}
    (hss : s.app.surface_state = some ss) (hrs : s.app.render_state = some rs) :
    ensure_render_state_for_surface s = some (request_adapter_if_needed s) := by
  simp only [ensure_render_state_for_surface, hss, raif_render, hrs]

lemma ensure_render_none_ok {s : Sys} {ss : SurfaceState} {fmt : TextureFormat}
    (hss : s.app.surface_state = some ss) (hrs : s.app.render_state = none)
    (hfmt : swapchain_format_choice s.world.formats = some fmt) :
    ensure_render_state_for_surface s =
      some (build_render_state fmt (request_adapter_if_needed s)) := by
  simp only [ensure_render_state_for_surface, hss, raif_render, hrs, raif_world, hfmt]

lemma ensure_render_none_panic {s : Sys} {ss : SurfaceState}
    (hss : s.app.surface_state = some ss) (hrs : s.app.render_state = none)
    (hfmt : swapchain_format_choice s.world.formats = none) :
    ensure_render_state_for_surface s = none := by
  simp only [ensure_render_state_for_surface, hss, raif_render, hrs, raif_world, hfmt]

lemma resume_elim {s s' : Sys} (h : resume s = some s') :
    ∃ s1, ensure_render_state_for_surface (create_surface s) = some s1 ∧
      s' = queue_redraw (configure_surface_swapchain s1) := by
  unfold resume at h
  rcases Option.map_eq_some'.mp h with ⟨s1, h1, h2⟩
  exact ⟨s1, h1, h2.symm⟩

lemma resume_render_some_elim {s s' : Sys} {rs : RenderState}
    (hrs : s.app.render_state = some rs) (h : resume s = some s') :
    s' = queue_redraw (configure_surface_swapchain
      (request_adapter_if_needed (create_surface s))) := by
  rcases resume_elim h with ⟨s1, h1, rfl⟩
  rw [ensure_render_some (create_app_surface s)
    (by rw [create_app_render]; exact hrs)] at h1
  rw [Option.some_inj.mp h1]

lemma resume_render_none_elim {s s' : Sys}
    (hrs : s.app.render_state = none) (h : resume s = some s') :
    ∃ fmt, swapchain_format_choice s.world.formats = some fmt ∧
      s' = queue_redraw (configure_surface_swapchain (build_render_state fmt
        (request_adapter_if_needed (create_surface s)))) := by
  rcases resume_elim h with ⟨s1, h1, rfl⟩
  cases hfmt : swapchain_format_choice s.world.formats with
  | none =>
    rw [ensure_render_none_panic (create_app_surface s)
      (by rw [create_app_render]; exact hrs)
      (by rw [create_world]; exact hfmt)] at h1
    cases h1
  | some fmt =>
    rw [ensure_render_none_ok (create_app_surface s)
      (by rw [create_app_render]; exact hrs)
      (by rw [create_world]; exact hfmt)] at h1
    exact ⟨fmt, rfl, by rw [Option.some_inj.mp h1]⟩

lemma resume_surface {s s' : Sys} (h : resume s = some s') :
    s'.app.surface_state = some ⟨s.next_id, s.next_id + 1⟩ := by
  cases hrs : s.app.render_state with
  | none =>
    rcases resume_render_none_elim hrs h with ⟨fmt, _, rfl⟩
    rw [queue_redraw_app, configure_app, build_app_surface, raif_surface,
      create_app_surface]
  | some rs =>
    rw [resume_render_some_elim hrs h, queue_redraw_app, configure_app,
      raif_surface, create_app_surface]

lemma resume_adapter_mono {s s' : Sys} {a : Nat} (ha : s.app.adapter = some a)
    (h : resume s = some s') : s'.app.adapter = some a := by
  have hca : (create_surface s).app.adapter = some a := by
    rw [create_app_adapter]; exact ha
  cases hrs : s.app.render_state with
  | none =>
    rcases resume_render_none_elim hrs h with ⟨fmt, _, rfl⟩
    rw [queue_redraw_app, configure_app, build_app_adapter]
    exact raif_adapter_mono hca
  | some rs =>
    rw [resume_render_some_elim hrs h, queue_redraw_app, configure_app]
    exact raif_adapter_mono hca

lemma resume_builds_none {s s' : Sys} (hrs : s.app.render_state = none)
    (h : resume s = some s') :
    s'.effects.pipeline_builds = s.effects.pipeline_builds + 1 := by
  rcases resume_render_none_elim hrs h with ⟨fmt, _, rfl⟩
  rw [queue_redraw_builds, configure_builds, build_builds, raif_builds,
    create_effects]

lemma resume_builds_some {s s' : Sys} {rs : RenderState}
    (hrs : s.app.render_state = some rs) (h : resume s = some s') :
    s'.effects.pipeline_builds = s.effects.pipeline_builds ∧
      s'.app.render_state = some rs := by
  rw [resume_render_some_elim hrs h]
  constructor
  · rw [queue_redraw_builds, configure_builds, raif_builds, create_effects]
  · rw [queue_redraw_app, configure_app, raif_render, create_app_render]
    exact hrs

lemma resume_new_render {s s' : Sys} (hrs : s.app.render_state = none)
    (h : resume s = some s') :
    ∃ fmt rs2, swapchain_format_choice s.world.formats = some fmt ∧
      s'.app.render_state = some rs2 ∧ rs2.target_format = fmt ∧
      s.next_id ≤ rs2.device := by
  rcases resume_render_none_elim hrs h with ⟨fmt, hfmt, rfl⟩
  have hdev := raif_next_id_ge (create_surface s)
  rw [create_next_id] at hdev
  refine ⟨fmt,
    { device := (request_adapter_if_needed (create_surface s)).next_id
      queue := (request_adapter_if_needed (create_surface s)).next_id + 1
      shader := (request_adapter_if_needed (create_surface s)).next_id + 2
      target_format := fmt
      pipeline_layout := (request_adapter_if_needed (create_surface s)).next_id + 3
      render_pipeline :=
        { id := (request_adapter_if_needed (create_surface s)).next_id + 4
          layout := (request_adapter_if_needed (create_surface s)).next_id + 3
          vertex_buffer_count := 0
          fragment_target := fmt } },
    hfmt, ?_, rfl, ?_⟩
  · rw [queue_redraw_app, configure_app, build_app_render]
  · show s.next_id ≤ (request_adapter_if_needed (create_surface s)).next_id
    omega

lemma resume_world {s s' : Sys} (h : resume s = some s') :
    s'.world = s.world := by
  cases hrs : s.app.render_state with
  | none =>
    rcases resume_render_none_elim hrs h with ⟨fmt, _, rfl⟩
    rw [queue_redraw_world, configure_world, build_world, raif_world, create_world]
  | some rs =>
    rw [resume_render_some_elim hrs h, queue_redraw_world, configure_world,
      raif_world, create_world]

lemma resume_next_id_ge {s s' : Sys} (h : resume s = some s') :
    s.next_id ≤ s'.next_id := by
  have hc := raif_next_id_ge (create_surface s)
  rw [create_next_id] at hc
  cases hrs : s.app.render_state with
  | none =>
    rcases resume_render_none_elim hrs h with ⟨fmt, _, rfl⟩
    rw [queue_redraw_next_id, configure_next_id, build_next_id]
    omega
  | some rs =>
    rw [resume_render_some_elim hrs h, queue_redraw_next_id, configure_next_id]
    omega

lemma render_ready {s : Sys} {ss : SurfaceState} {rs : RenderState}
    (hss : s.app.surface_state = some ss) (hrs : s.app.render_state = some rs) :
    render s = { s with effects := { s.effects with
      gpu_ops :=
        GpuOp.present ss.surface
          :: GpuOp.submit
              { device := rs.device
                queue := rs.queue
                clear_color := Color.GREEN
                store := true
                pipeline := rs.render_pipeline
                vertex_range := (0, 3)
                instance_range := (0, 1)
                vertex_buffers_set := 0 }
          :: GpuOp.acquireTexture ss.surface
          :: s.effects.gpu_ops } } := by
  simp only [render, hss, hrs]

lemma render_app (s : Sys) : (render s).app = s.app := by
  cases hss : s.app.surface_state <;> cases hrs : s.app.render_state <;>
    simp only [render, hss, hrs]

lemma render_world (s : Sys) : (render s).world = s.world := by
  cases hss : s.app.surface_state <;> cases hrs : s.app.render_state <;>
    simp only [render, hss, hrs]

lemma render_next_id (s : Sys) : (render s).next_id = s.next_id := by
  cases hss : s.app.surface_state <;> cases hrs : s.app.render_state <;>
    simp only [render, hss, hrs]

lemma render_builds (s : Sys) :
    (render s).effects.pipeline_builds = s.effects.pipeline_builds := by
  cases hss : s.app.surface_state <;> cases hrs : s.app.render_state <;>
    simp only [render, hss, hrs]

lemma render_configures (s : Sys) :
    (render s).effects.configures = s.effects.configures := by
  cases hss : s.app.surface_state <;> cases hrs : s.app.render_state <;>
    simp only [render, hss, hrs]

lemma render_adapter_requests (s : Sys) :
    (render s).effects.adapter_requests = s.effects.adapter_requests := by
  cases hss : s.app.surface_state <;> cases hrs : s.app.render_state <;>
    simp only [render, hss, hrs]

lemma step_suspended_eq (s : Sys) :
    step Event.suspended s =
      some { s with app := { s.app with render_state := none } } := rfl

lemma step_resized_eq (s : Sys) (w h : Nat) :
    step (Event.resized w h) s =
      some (queue_redraw (configure_surface_swapchain
        { s with world := { s.world with window_size := (w, h) } })) := rfl

lemma step_redraw_eq (s : Sys) :
    step Event.redrawRequested s = some (render s) := rfl

lemma step_close_eq (s : Sys) :
    step Event.closeRequested s =
      some { s with effects := { s.effects with exited := true } } := rfl

lemma step_resumed_eq (s : Sys) : step Event.resumed s = resume s := rfl

/-! ### Preservation of the handle-freshness and format-coherence invariant -/

lemma sysInv_init (w : World) : SysInv (initSys w) := by
  constructor <;> intros <;> simp_all [initSys, initApp, initEffects]

lemma sysInv_configure {s : Sys} (h : SysInv s) :
    SysInv (configure_surface_swapchain s) := by
  cases hrs : s.app.render_state with
  | none => rw [configure_no_render hrs]; exact h
  | some rs =>
    cases hss : s.app.surface_state with
    | none => rw [configure_no_surface hss]; exact h
    | some ss =>
      rw [configure_ready hrs hss]
      refine ⟨h.rs_lt, h.ss_lt, h.ad_lt, ?_, ?_, ?_, ?_⟩
      · intro c hc
        rcases List.mem_cons.mp hc with rfl | hc
        · exact h.rs_lt rs hrs
        · exact h.cfg_lt c hc
      · intro rs' hrs' c hc hdev
        have hrr : rs' = rs := by
          have : s.app.render_state = some rs' := hrs'
          rw [hrs] at this
          exact (Option.some_inj.mp this).symm
        subst hrr
        rcases List.mem_cons.mp hc with rfl | hc
        · rfl
        · exact h.cfg_cur rs' hrs c hc hdev
      · intro c1 hc1 c2 hc2 hdev
        rcases List.mem_cons.mp hc1 with rfl | hc1 <;>
          rcases List.mem_cons.mp hc2 with rfl | hc2
        · rfl
        · exact (h.cfg_cur rs hrs c2 hc2 hdev.symm).symm
        · exact h.cfg_cur rs hrs c1 hc1 hdev
        · exact h.cfg_pair c1 hc1 c2 hc2 hdev
      · intro c hc
        rcases List.mem_cons.mp hc with rfl | hc
        · exact ⟨rs.target_format, s.world.window_size, rfl⟩
        · exact h.cfg_shape c hc

lemma sysInv_queue_redraw {s : Sys} (h : SysInv s) : SysInv (queue_redraw s) := by
  cases hss : s.app.surface_state with
  | none => rw [queue_redraw_none hss]; exact h
  | some ss =>
    rw [queue_redraw_some hss]
    exact ⟨h.rs_lt, h.ss_lt, h.ad_lt, h.cfg_lt, h.cfg_cur, h.cfg_pair, h.cfg_shape⟩

lemma sysInv_create {s : Sys} (h : SysInv s) : SysInv (create_surface s) := by
  refine ⟨?_, ?_, ?_, ?_, h.cfg_cur, h.cfg_pair, h.cfg_shape⟩
  · intro rs hrs
    have := h.rs_lt rs hrs
    rw [create_next_id]
    omega
  · intro ss hss
    rw [create_app_surface] at hss
    cases Option.some_inj.mp hss
    rw [create_next_id]
    show s.next_id < s.next_id + 2 ∧ s.next_id + 1 < s.next_id + 2
    omega
  · intro a ha
    have := h.ad_lt a ha
    rw [create_next_id]
    omega
  · intro c hc
    have := h.cfg_lt c hc
    rw [create_next_id]
    omega

lemma sysInv_raif {s : Sys} (h : SysInv s) :
    SysInv (request_adapter_if_needed s) := by
  cases ha : s.app.adapter with
  | some a => rw [raif_adapter_some ha]; exact h
  | none =>
    rw [raif_adapter_none ha]
    refine ⟨?_, ?_, ?_, ?_, h.cfg_cur, h.cfg_pair, h.cfg_shape⟩
    · intro rs hrs
      have := h.rs_lt rs hrs
      show rs.device < s.next_id + 1
      omega
    · intro ss hss
      obtain ⟨h1, h2⟩ := h.ss_lt ss hss
      show ss.window < s.next_id + 1 ∧ ss.surface < s.next_id + 1
      omega
    · intro a ha2
      have : some s.next_id = some a := ha2
      cases Option.some_inj.mp this
      show s.next_id < s.next_id + 1
      omega
    · intro c hc
      have := h.cfg_lt c hc
      show c.device < s.next_id + 1
      omega

lemma sysInv_build {s : Sys} (fmt : TextureFormat) (h : SysInv s) :
    SysInv (build_render_state fmt s) := by
  refine ⟨?_, ?_, ?_, ?_, ?_, h.cfg_pair, h.cfg_shape⟩
  · intro rs hrs
    rw [build_app_render] at hrs
    cases Option.some_inj.mp hrs
    rw [build_next_id]
    show s.next_id < s.next_id + 5
    omega
  · intro ss hss
    obtain ⟨h1, h2⟩ := h.ss_lt ss hss
    rw [build_next_id]
    omega
  · intro a ha
    have := h.ad_lt a ha
    rw [build_next_id]
    omega
  · intro c hc
    have := h.cfg_lt c hc
    rw [build_next_id]
    omega
  · intro rs hrs c hc hdev
    rw [build_app_render] at hrs
    cases Option.some_inj.mp hrs
    have hlt := h.cfg_lt c hc
    have hd : c.device = s.next_id := hdev
    rw [hd] at hlt
    exact absurd hlt (lt_irrefl _)

lemma sysInv_render {s : Sys} (h : SysInv s) : SysInv (render s) := by
  cases hss : s.app.surface_state with
  | none => rw [render_not_ready (Or.inl hss)]; exact h
  | some ss =>
    cases hrs : s.app.render_state with
    | none => rw [render_not_ready (Or.inr hrs)]; exact h
    | some rs =>
      rw [render_ready hss hrs]
      exact ⟨h.rs_lt, h.ss_lt, h.ad_lt, h.cfg_lt, h.cfg_cur, h.cfg_pair, h.cfg_shape⟩

lemma sysInv_ensure {s s' : Sys} (h : SysInv s)
    (he : ensure_render_state_for_surface s = some s') : SysInv s' := by
  cases hss : s.app.surface_state with
  | none =>
    rw [ensure_no_surface hss] at he
    cases Option.some_inj.mp he
    exact h
  | some ss =>
    cases hrs : s.app.render_state with
    | some rs =>
      rw [ensure_render_some hss hrs] at he
      cases Option.some_inj.mp he
      exact sysInv_raif h
    | none =>
      cases hfmt : swapchain_format_choice s.world.formats with
      | none => rw [ensure_render_none_panic hss hrs hfmt] at he; cases he
      | some fmt =>
        rw [ensure_render_none_ok hss hrs hfmt] at he
        cases Option.some_inj.mp he
        exact sysInv_build fmt (sysInv_raif h)

lemma sysInv_step {e : Event} {s s' : Sys} (h : SysInv s)
    (hstep : step e s = some s') : SysInv s' := by
  cases e with
  | resumed =>
    rcases resume_elim hstep with ⟨s1, h1, rfl⟩
    exact sysInv_queue_redraw (sysInv_configure (sysInv_ensure (sysInv_create h) h1))
  | suspended =>
    rw [step_suspended_eq] at hstep
    cases Option.some_inj.mp hstep
    refine ⟨?_, h.ss_lt, h.ad_lt, h.cfg_lt, ?_, h.cfg_pair, h.cfg_shape⟩
    · intro rs hrs
      exact Option.noConfusion hrs
    · intro rs hrs
      exact Option.noConfusion hrs
  | resized w hh =>
    rw [step_resized_eq] at hstep
    cases Option.some_inj.mp hstep
    refine sysInv_queue_redraw (sysInv_configure ?_)
    exact ⟨h.rs_lt, h.ss_lt, h.ad_lt, h.cfg_lt, h.cfg_cur, h.cfg_pair, h.cfg_shape⟩
  | redrawRequested =>
    rw [step_redraw_eq] at hstep
    cases Option.some_inj.mp hstep
    exact sysInv_render h
  | closeRequested =>
    rw [step_close_eq] at hstep
    cases Option.some_inj.mp hstep
    exact ⟨h.rs_lt, h.ss_lt, h.ad_lt, h.cfg_lt, h.cfg_cur, h.cfg_pair, h.cfg_shape⟩

lemma sysInv_processEvents {evs : List Event} {s s' : Sys} (h : SysInv s)
    (hp : processEvents evs s = some s') : SysInv s' := by
  induction evs generalizing s with
  | nil =>
    simp only [processEvents] at hp
    cases Option.some_inj.mp hp
    exact h
  | cons e rest ih =>
    simp only [processEvents] at hp
    rcases Option.bind_eq_some.mp hp with ⟨s1, h1, h2⟩
    exact ih (sysInv_step h h1) h2

lemma sysInv_runEvents {w : World} {evs : List Event} {s : Sys}
    (h : runEvents w evs = some s) : SysInv s :=
  sysInv_processEvents (sysInv_init w) h

/-! ### Counting invariants: builds per run, adapter requests per run -/

lemma builds_step {e : Event} {s s' : Sys} (hne : e ≠ Event.suspended)
    (hstep : step e s = some s')
    (hP : s.effects.pipeline_builds
      = if s.app.render_state.isSome then 1 else 0) :
    s'.effects.pipeline_builds
      = if s'.app.render_state.isSome then 1 else 0 := by
  cases e with
  | suspended => exact absurd rfl hne
  | resumed =>
    rw [step_resumed_eq] at hstep
    cases hrs : s.app.render_state with
    | some rs =>
      obtain ⟨hb, hr⟩ := resume_builds_some hrs hstep
      rw [hb, hr, hP, hrs]
    | none =>
      have hb := resume_builds_none hrs hstep
      rcases resume_new_render hrs hstep with ⟨fmt, rs2, _, hr2, _, _⟩
      rw [hb, hP, hrs, hr2]
      rfl
  | resized w hh =>
    rw [step_resized_eq] at hstep
    cases Option.some_inj.mp hstep
    rw [queue_redraw_builds, configure_builds, queue_redraw_app, configure_app]
    exact hP
  | redrawRequested =>
    rw [step_redraw_eq] at hstep
    cases Option.some_inj.mp hstep
    rw [render_builds, render_app]
    exact hP
  | closeRequested =>
    rw [step_close_eq] at hstep
    cases Option.some_inj.mp hstep
    exact hP

lemma builds_processEvents {evs : List Event} {s s' : Sys}
    (hns : Event.suspended ∉ evs)
    (hp : processEvents evs s = some s')
    (hP : s.effects.pipeline_builds
      = if s.app.render_state.isSome then 1 else 0) :
    s'.effects.pipeline_builds
      = if s'.app.render_state.isSome then 1 else 0 := by
  induction evs generalizing s with
  | nil =>
    simp only [processEvents] at hp
    cases Option.some_inj.mp hp
    exact hP
  | cons e rest ih =>
    simp only [processEvents] at hp
    rcases Option.bind_eq_some.mp hp with ⟨s1, h1, h2⟩
    rw [List.mem_cons] at hns
    push_neg at hns
    exact ih hns.2 h2 (builds_step (fun he => hns.1 he.symm) h1 hP)

lemma builds_runEvents {w : World} {evs : List Event} {s : Sys}
    (hns : Event.suspended ∉ evs) (h : runEvents w evs = some s) :
    s.effects.pipeline_builds
      = if s.app.render_state.isSome then 1 else 0 :=
  builds_processEvents hns h rfl

lemma adapter_inv_raif {s : Sys}
    (hP : s.effects.adapter_requests = if s.app.adapter.isSome then 1 else 0) :
    (request_adapter_if_needed s).effects.adapter_requests
      = if (request_adapter_if_needed s).app.adapter.isSome then 1 else 0 := by
  cases ha : s.app.adapter with
  | some a =>
    rw [raif_adapter_some ha]
    exact hP
  | none =>
    rw [raif_adapter_none ha]
    rw [ha] at hP
    show s.effects.adapter_requests + 1 = if (some s.next_id).isSome then 1 else 0
    simp at hP ⊢
    omega

lemma adapter_inv_ensure {s s' : Sys}
    (he : ensure_render_state_for_surface s = some s')
    (hP : s.effects.adapter_requests = if s.app.adapter.isSome then 1 else 0) :
    s'.effects.adapter_requests = if s'.app.adapter.isSome then 1 else 0 := by
  cases hss : s.app.surface_state with
  | none =>
    rw [ensure_no_surface hss] at he
    cases Option.some_inj.mp he
    exact hP
  | some ss =>
    cases hrs : s.app.render_state with
    | some rs =>
      rw [ensure_render_some hss hrs] at he
      cases Option.some_inj.mp he
      exact adapter_inv_raif hP
    | none =>
      cases hfmt : swapchain_format_choice s.world.formats with
      | none => rw [ensure_render_none_panic hss hrs hfmt] at he; cases he
      | some fmt =>
        rw [ensure_render_none_ok hss hrs hfmt] at he
        cases Option.some_inj.mp he
        rw [build_adapter_requests, build_app_adapter]
        exact adapter_inv_raif hP

lemma adapter_inv_step {e : Event} {s s' : Sys} (hstep : step e s = some s')
    (hP : s.effects.adapter_requests = if s.app.adapter.isSome then 1 else 0) :
    s'.effects.adapter_requests = if s'.app.adapter.isSome then 1 else 0 := by
  cases e with
  | resumed =>
    rcases resume_elim hstep with ⟨s1, h1, rfl⟩
    rw [queue_redraw_adapter_requests, configure_adapter_requests,
      queue_redraw_app, configure_app]
    exact adapter_inv_ensure h1 (by rw [create_effects, create_app_adapter]; exact hP)
  | suspended =>
    rw [step_suspended_eq] at hstep
    cases Option.some_inj.mp hstep
    exact hP
  | resized w hh =>
    rw [step_resized_eq] at hstep
    cases Option.some_inj.mp hstep
    rw [queue_redraw_adapter_requests, configure_adapter_requests,
      queue_redraw_app, configure_app]
    exact hP
  | redrawRequested =>
    rw [step_redraw_eq] at hstep
    cases Option.some_inj.mp hstep
    rw [render_adapter_requests, render_app]
    exact hP
  | closeRequested =>
    rw [step_close_eq] at hstep
    cases Option.some_inj.mp hstep
    exact hP

lemma adapter_inv_processEvents {evs : List Event} {s s' : Sys}
    (hp : processEvents evs s = some s')
    (hP : s.effects.adapter_requests = if s.app.adapter.isSome then 1 else 0) :
    s'.effects.adapter_requests = if s'.app.adapter.isSome then 1 else 0 := by
  induction evs generalizing s with
  | nil =>
    simp only [processEvents] at hp
    cases Option.some_inj.mp hp
    exact hP
  | cons e rest ih =>
    simp only [processEvents] at hp
    rcases Option.bind_eq_some.mp hp with ⟨s1, h1, h2⟩
    exact ih h2 (adapter_inv_step h1 hP)

lemma adapter_inv_runEvents {w : World} {evs : List Event} {s : Sys}
    (h : runEvents w evs = some s) :
    s.effects.adapter_requests = if s.app.adapter.isSome then 1 else 0 :=
  adapter_inv_processEvents h rfl

/-! ### The format-selection rule -/

lemma find_eq_filter_head (l : List TextureFormat) :
    l.find? (fun f => f.is_srgb) = (l.filter (fun f => f.is_srgb)).head? := by
  induction l with
  | nil => rfl
  | cons f rest ih =>
    cases h : f.is_srgb with
    | true => simp only [List.find?, List.filter, h, List.head?]
    | false => simp only [List.find?, List.filter, h]; exact ih

lemma format_choice_eq_spec (l : List TextureFormat) :
    swapchain_format_choice l = spec_format_choice l := by
  cases l with
  | nil => rfl
  | cons f0 rest =>
    rw [show swapchain_format_choice (f0 :: rest)
        = some (((f0 :: rest).find? (fun f => f.is_srgb)).getD f0) from rfl,
      find_eq_filter_head]
    unfold spec_format_choice
    cases hf : (f0 :: rest).filter (fun f => f.is_srgb) with
    | nil => rfl
    | cons g gs => rfl

/-! ### Claim theorems -/

/-- C1 counterexample: the claim states that after a Suspend event both the
SurfaceBinding and the RenderContext fields are `None`. In the code the
Suspend arm (lib.rs:288-291) only clears `render_state`: after the concrete
run Resume, Suspend, the `surface_state` field still holds the pre-suspend
SurfaceBinding (window 0, surface 1). -/
theorem C1_suspend_keeps_surface_cex :
    step Event.suspended S1 = some S2 ∧
    S2.app.surface_state = some ⟨0, 1⟩ ∧
    S2.app.render_state = none :=
  ⟨rfl, rfl, rfl⟩

/-- C1 (amended): after a Suspend event the RenderContext field is `None`,
but the SurfaceBinding field and the negotiated adapter are left unchanged;
the next Resume then replaces the SurfaceBinding and builds a brand-new
RenderContext (distinct from any pre-suspend one) while reusing the
pre-suspend adapter handle. -/
theorem C1_suspend_teardown_amended (w : World) (evs : List Event)
    (s s1 s2 : Sys) (a : Nat)
    (hrun : runEvents w evs = some s)
    (ha : s.app.adapter = some a)
    (hsusp : step Event.suspended s = some s1)
    (hres : step Event.resumed s1 = some s2) :
    s1.app.render_state = none ∧
    s1.app.surface_state = s.app.surface_state ∧
    s1.app.adapter = some a ∧
    s2.app.adapter = some a ∧
    (∃ rs2, s2.app.render_state = some rs2 ∧
      ∀ rs, s.app.render_state = some rs → rs2 ≠ rs) ∧
    (∃ ss2, s2.app.surface_state = some ss2 ∧
      ∀ ss, s.app.surface_state = some ss → ss2 ≠ ss) := by
  have hinv := sysInv_runEvents hrun
  rw [step_suspended_eq] at hsusp
  cases Option.some_inj.mp hsusp
  rw [step_resumed_eq] at hres
  refine ⟨rfl, rfl, ha,
    resume_adapter_mono (s := { s with app := { s.app with render_state := none } })
      ha hres, ?_, ?_⟩
  · rcases resume_new_render (s := { s with app := { s.app with render_state := none } })
      rfl hres with ⟨fmt, rs2, hfmt, hr2, htf, hge⟩
    refine ⟨rs2, hr2, ?_⟩
    intro rs hrs heq
    have h1 := hinv.rs_lt rs hrs
    have h2 : s.next_id ≤ rs2.device := hge
    rw [heq] at h2
    omega
  · refine ⟨⟨s.next_id, s.next_id + 1⟩,
      resume_surface (s := { s with app := { s.app with render_state := none } })
        hres, ?_⟩
    intro ss hss heq
    have h1 := (hinv.ss_lt ss hss).1
    rw [← heq] at h1
    have h2 : s.next_id < s.next_id := h1
    omega

/-- Witness for C1 (amended) at the concrete run Resume, Suspend, Resume. -/
theorem C1_suspend_teardown_amended_witness :
    S2.app.render_state = none ∧
    S2.app.surface_state = S1.app.surface_state ∧
    S2.app.adapter = some 2 ∧
    S3.app.adapter = some 2 ∧
    (∃ rs2, S3.app.render_state = some rs2 ∧
      ∀ rs, S1.app.render_state = some rs → rs2 ≠ rs) ∧
    (∃ ss2, S3.app.surface_state = some ss2 ∧
      ∀ ss, S1.app.surface_state = some ss → ss2 ≠ ss) :=
  C1_suspend_teardown_amended w0 [Event.resumed] S1 S2 S3 2 rfl rfl rfl rfl

/-- C2: along any event sequence without a Suspend, the RenderContext build
step (device request, shader compile, pipeline build) runs at most once;
and when a Suspend and then a Resume follow such a run, the Resume performs
a fresh build: the build counter increments by one and both the new
RenderContext and the new SurfaceBinding are distinct from any pre-suspend
ones. -/
theorem C2_context_built_once (w : World) (evs : List Event) (s s1 s2 : Sys)
    (hrun : runEvents w evs = some s)
    (hns : Event.suspended ∉ evs)
    (hsusp : step Event.suspended s = some s1)
    (hres : step Event.resumed s1 = some s2) :
    s.effects.pipeline_builds ≤ 1 ∧
    s2.effects.pipeline_builds = s.effects.pipeline_builds + 1 ∧
    (∃ rs2, s2.app.render_state = some rs2 ∧
      ∀ rs, s.app.render_state = some rs → rs2.device ≠ rs.device) ∧
    (∃ ss2, s2.app.surface_state = some ss2 ∧
      ∀ ss, s.app.surface_state = some ss → ss2.surface ≠ ss.surface) := by
  have hinv := sysInv_runEvents hrun
  have hbuilds := builds_runEvents hns hrun
  rw [step_suspended_eq] at hsusp
  cases Option.some_inj.mp hsusp
  rw [step_resumed_eq] at hres
  refine ⟨?_,
    resume_builds_none (s := { s with app := { s.app with render_state := none } })
      rfl hres, ?_, ?_⟩
  · rw [hbuilds]
    split <;> omega
  · rcases resume_new_render (s := { s with app := { s.app with render_state := none } })
      rfl hres with ⟨fmt, rs2, hfmt, hr2, htf, hge⟩
    refine ⟨rs2, hr2, ?_⟩
    intro rs hrs hdev
    have h1 := hinv.rs_lt rs hrs
    have h2 : s.next_id ≤ rs2.device := hge
    omega
  · refine ⟨⟨s.next_id, s.next_id + 1⟩,
      resume_surface (s := { s with app := { s.app with render_state := none } })
        hres, ?_⟩
    intro ss hss hsur
    have h1 := (hinv.ss_lt ss hss).2
    have h2 : s.next_id + 1 = ss.surface := hsur
    omega

/-- Witness for C2 at the concrete run Resume (no suspend), then Suspend,
then Resume. -/
theorem C2_context_built_once_witness :
    S1.effects.pipeline_builds ≤ 1 ∧
    S3.effects.pipeline_builds = S1.effects.pipeline_builds + 1 ∧
    (∃ rs2, S3.app.render_state = some rs2 ∧
      ∀ rs, S1.app.render_state = some rs → rs2.device ≠ rs.device) ∧
    (∃ ss2, S3.app.surface_state = some ss2 ∧
      ∀ ss, S1.app.surface_state = some ss → ss2.surface ≠ ss.surface) :=
  C2_context_built_once w0 [Event.resumed] S1 S2 S3 rfl (by decide) rfl rfl

/-- C3: the chosen color format at RenderContext construction is the first
sRGB-encoded format of the surface's advertised list when any entry is
sRGB, and otherwise the first advertised format (the source rule
`swapchain_format_choice` coincides with the spec-worded
`spec_format_choice`); a Resume that builds a RenderContext caches exactly
that choice in the built state, and a Resize leaves the RenderContext (and
hence the cached format) untouched. -/
theorem C3_format_selection :
    (∀ l : List TextureFormat,
      swapchain_format_choice l = spec_format_choice l) ∧
    (∀ s s' : Sys, step Event.resumed s = some s' →
      s.app.render_state = none →
      ∃ rs, s'.app.render_state = some rs ∧
        swapchain_format_choice s.world.formats = some rs.target_format) ∧
    (∀ s s' : Sys, ∀ wd ht : Nat,
      step (Event.resized wd ht) s = some s' →
      s'.app.render_state = s.app.render_state) := by
  refine ⟨format_choice_eq_spec, ?_, ?_⟩
  · intro s s' hstep hrs
    rw [step_resumed_eq] at hstep
    rcases resume_new_render hrs hstep with ⟨fmt, rs2, hfmt, hr2, htf, _⟩
    exact ⟨rs2, hr2, by rw [hfmt, htf]⟩
  · intro s s' wd ht hstep
    rw [step_resized_eq] at hstep
    cases Option.some_inj.mp hstep
    rw [queue_redraw_app, configure_app]

/-- Witness for C3 at the concrete environment: the first Resume builds a
render state cached with the sRGB format, and a following Resize keeps it. -/
theorem C3_format_selection_witness :
    swapchain_format_choice w0.formats = spec_format_choice w0.formats ∧
    (∃ rs, S1.app.render_state = some rs ∧
      swapchain_format_choice S0.world.formats = some rs.target_format) ∧
    S4.app.render_state = S1.app.render_state :=
  ⟨C3_format_selection.1 w0.formats,
   C3_format_selection.2.1 S0 S1 rfl rfl,
   C3_format_selection.2.2 S1 S4 800 600 rfl⟩

/-- C4: every recorded swapchain configuration uses present mode FIFO, a
maximum in-flight frame latency of 2, and the alpha mode inherited from the
window system; every invocation of the configurator with both fields
present applies exactly the configuration derived from the RenderContext's
cached format and the current window size; and any two configurations
applied against the same device (the same RenderContext epoch) carry the
same format. -/
theorem C4_swapchain_config_params (w : World) (evs : List Event) (s : Sys)
    (hrun : runEvents w evs = some s) :
    (∀ c ∈ s.effects.configures,
      c.config.present_mode = PresentMode.Fifo ∧
      c.config.desired_maximum_frame_latency = 2 ∧
      c.config.alpha_mode = CompositeAlphaMode.Inherit) ∧
    (∀ t : Sys, ∀ rs : RenderState, ∀ ss : SurfaceState,
      t.app.render_state = some rs → t.app.surface_state = some ss →
      (configure_surface_swapchain t).effects.configures =
        ⟨rs.device, ss.surface,
          surface_configuration rs.target_format t.world.window_size⟩
          :: t.effects.configures) ∧
    (∀ c1 ∈ s.effects.configures, ∀ c2 ∈ s.effects.configures,
      c1.device = c2.device → c1.config.format = c2.config.format) := by
  have hinv := sysInv_runEvents hrun
  refine ⟨?_, ?_, hinv.cfg_pair⟩
  · intro c hc
    rcases hinv.cfg_shape c hc with ⟨fmt, sz, hcfg⟩
    rw [hcfg]
    exact ⟨rfl, rfl, rfl⟩
  · intro t rs ss hrs hss
    rw [configure_ready hrs hss]

/-- Witness for C4 at the concrete run with one Resume. -/
theorem C4_swapchain_config_params_witness :
    (∀ c ∈ S1.effects.configures,
      c.config.present_mode = PresentMode.Fifo ∧
      c.config.desired_maximum_frame_latency = 2 ∧
      c.config.alpha_mode = CompositeAlphaMode.Inherit) ∧
    (∀ t : Sys, ∀ rs : RenderState, ∀ ss : SurfaceState,
      t.app.render_state = some rs → t.app.surface_state = some ss →
      (configure_surface_swapchain t).effects.configures =
        ⟨rs.device, ss.surface,
          surface_configuration rs.target_format t.world.window_size⟩
          :: t.effects.configures) ∧
    (∀ c1 ∈ S1.effects.configures, ∀ c2 ∈ S1.effects.configures,
      c1.device = c2.device → c1.config.format = c2.config.format) :=
  C4_swapchain_config_params w0 [Event.resumed] S1 rfl

/-- C5: invoking the swapchain configurator twice with unchanged window
size and the same RenderContext applies the identical configuration both
times: no error, and the very same SwapchainConfig record is pushed twice. -/
theorem C5_configure_idempotent (s : Sys) (rs : RenderState) (ss : SurfaceState)
    (h1 : s.app.render_state = some rs) (h2 : s.app.surface_state = some ss) :
    (configure_surface_swapchain (configure_surface_swapchain s)).effects.configures
      = ⟨rs.device, ss.surface,
          surface_configuration rs.target_format s.world.window_size⟩
        :: ⟨rs.device, ss.surface,
          surface_configuration rs.target_format s.world.window_size⟩
        :: s.effects.configures := by
  have h1a : (configure_surface_swapchain s).app.render_state = some rs := by
    rw [configure_app]; exact h1
  have h2a : (configure_surface_swapchain s).app.surface_state = some ss := by
    rw [configure_app]; exact h2
  rw [configure_ready h1a h2a, configure_world, configure_ready h1 h2]

/-- Witness for C5 at the concrete post-Resume state. -/
theorem C5_configure_idempotent_witness :
    (configure_surface_swapchain (configure_surface_swapchain S1)).effects.configures
      = ⟨3, 1, surface_configuration ⟨1, true⟩ S1.world.window_size⟩
        :: ⟨3, 1, surface_configuration ⟨1, true⟩ S1.world.window_size⟩
        :: S1.effects.configures :=
  C5_configure_idempotent S1
    { device := 3, queue := 4, shader := 5, target_format := ⟨1, true⟩,
      pipeline_layout := 6,
      render_pipeline :=
        { id := 7, layout := 6, vertex_buffer_count := 0,
          fragment_target := ⟨1, true⟩ } }
    ⟨0, 1⟩ rfl rfl

/-- C6: a RedrawRequested event handled while the SurfaceBinding or the
RenderContext is missing leaves the whole state unchanged: the handler
returns normally (no panic), no frame is submitted, no GPU operation is
recorded. -/
theorem C6_redraw_dropped_when_not_ready (s : Sys)
    (h : s.app.surface_state = none ∨ s.app.render_state = none) :
    step Event.redrawRequested s = some s ∧
    (render s).effects.submits = s.effects.submits := by
  rw [step_redraw_eq, render_not_ready h]
  exact ⟨rfl, rfl⟩

/-- Witness for C6: the scenario Resume, Suspend, RedrawRequested submits
no frame. -/
theorem C6_redraw_dropped_when_not_ready_witness :
    step Event.redrawRequested S2 = some S2 ∧
    (render S2).effects.submits = S2.effects.submits :=
  C6_redraw_dropped_when_not_ready S2 (Or.inr rfl)

/-- C7 counterexample: after Resume then Suspend the orchestrator is not
Ready (the RenderContext is gone), yet a Resize is not a complete no-op:
the handler still calls `queue_redraw`, which finds a surface and schedules
a redraw, raising the redraw-request count from 1 to 2. -/
theorem C7_resize_schedules_redraw_cex :
    S2.app.render_state = none ∧
    step (Event.resized 800 600) S2 = some S5 ∧
    S2.effects.redraw_requests = 1 ∧
    S5.effects.redraw_requests = 2 :=
  ⟨rfl, rfl, rfl, rfl⟩

/-- C7 (amended): a Resize while not Ready (SurfaceBinding or RenderContext
missing) performs no swapchain reconfiguration and leaves the
orchestrator's fields (adapter, surface binding, render context) unchanged,
but it still schedules a redraw whenever a SurfaceBinding exists; only with
no SurfaceBinding at all is the event a complete no-op. -/
theorem C7_resize_not_ready_amended (s s' : Sys) (wd ht : Nat)
    (h : s.app.surface_state = none ∨ s.app.render_state = none)
    (hstep : step (Event.resized wd ht) s = some s') :
    s'.effects.configures = s.effects.configures ∧
    s'.app = s.app ∧
    s'.effects.redraw_requests =
      (if s.app.surface_state.isSome
        then s.effects.redraw_requests + 1
        else s.effects.redraw_requests) := by
  rw [step_resized_eq] at hstep
  cases Option.some_inj.mp hstep
  cases hss : s.app.surface_state with
  | none =>
    have e1 : configure_surface_swapchain
        { s with world := { s.world with window_size := (wd, ht) } }
        = { s with world := { s.world with window_size := (wd, ht) } } :=
      configure_no_surface hss
    have e2 : queue_redraw
        { s with world := { s.world with window_size := (wd, ht) } }
        = { s with world := { s.world with window_size := (wd, ht) } } :=
      queue_redraw_none hss
    rw [e1, e2]
    exact ⟨rfl, rfl, rfl⟩
  | some ss =>
    have hrn : s.app.render_state = none := by
      rcases h with h | h
      · rw [hss] at h; cases h
      · exact h
    have e1 : configure_surface_swapchain
        { s with world := { s.world with window_size := (wd, ht) } }
        = { s with world := { s.world with window_size := (wd, ht) } } :=
      configure_no_render hrn
    have e2 := queue_redraw_some
      (s := { s with world := { s.world with window_size := (wd, ht) } }) hss
    rw [e1, e2]
    exact ⟨rfl, rfl, rfl⟩

/-- Witness for C7 (amended): the Resize in Resume, Suspend, Resize. -/
theorem C7_resize_not_ready_amended_witness :
    S5.effects.configures = S2.effects.configures ∧
    S5.app = S2.app ∧
    S5.effects.redraw_requests =
      (if S2.app.surface_state.isSome
        then S2.effects.redraw_requests + 1
        else S2.effects.redraw_requests) :=
  C7_resize_not_ready_amended S2 S5 800 600 (Or.inr rfl) rfl

/-- C8 counterexample: the claim states a Resume creates a SurfaceBinding
only if none exists. In the code `App::resume` calls `create_surface`
unconditionally: a second Resume while the binding (window 0, surface 1) is
held replaces it with a fresh binding (window 8, surface 9). -/
theorem C8_resume_always_creates_cex :
    S1.app.surface_state = some ⟨0, 1⟩ ∧
    step Event.resumed S1 = some S7 ∧
    S7.app.surface_state = some ⟨8, 9⟩ :=
  ⟨rfl, rfl, rfl⟩

/-- C8 (amended): on every Resume a brand-new SurfaceBinding is created
unconditionally from fresh handles; a binding already held is replaced, not
left in place. -/
theorem C8_resume_replaces_surface_amended (w : World) (evs : List Event)
    (s s' : Sys)
    (hrun : runEvents w evs = some s)
    (hres : step Event.resumed s = some s') :
    s'.app.surface_state = some ⟨s.next_id, s.next_id + 1⟩ ∧
    (∀ ss, s.app.surface_state = some ss →
      ss ≠ SurfaceState.mk s.next_id (s.next_id + 1)) := by
  have hinv := sysInv_runEvents hrun
  rw [step_resumed_eq] at hres
  refine ⟨resume_surface hres, ?_⟩
  intro ss hss heq
  have h1 := (hinv.ss_lt ss hss).1
  rw [heq] at h1
  have h2 : s.next_id < s.next_id := h1
  omega

/-- Witness for C8 (amended): the very first Resume from the initial state. -/
theorem C8_resume_replaces_surface_amended_witness :
    S1.app.surface_state = some ⟨S0.next_id, S0.next_id + 1⟩ ∧
    (∀ ss, S0.app.surface_state = some ss →
      ss ≠ SurfaceState.mk S0.next_id (S0.next_id + 1)) :=
  C8_resume_replaces_surface_amended w0 [] S0 S1 rfl rfl

/-- C9: a RedrawRequested processed in the Ready state acquires the
swapchain texture, records and submits exactly one command buffer that
clears the target to the fixed color `Color.GREEN`, issues a single draw
against the compiled pipeline with vertices 0..3 and instances 0..1 and no
vertex buffer bound, and presents the acquired image after the submission. -/
theorem C9_redraw_ready_frame (s s' : Sys) (ss : SurfaceState) (rs : RenderState)
    (h1 : s.app.surface_state = some ss) (h2 : s.app.render_state = some rs)
    (hstep : step Event.redrawRequested s = some s') :
    ∃ f : Frame,
      s'.effects.gpu_ops = GpuOp.present ss.surface :: GpuOp.submit f
          :: GpuOp.acquireTexture ss.surface :: s.effects.gpu_ops ∧
      s'.effects.submits = f :: s.effects.submits ∧
      f.clear_color = Color.GREEN ∧
      f.pipeline = rs.render_pipeline ∧
      f.vertex_range = (0, 3) ∧
      f.instance_range = (0, 1) ∧
      f.vertex_buffers_set = 0 ∧
      f.device = rs.device ∧ f.queue = rs.queue := by
  rw [step_redraw_eq] at hstep
  cases Option.some_inj.mp hstep
  rw [render_ready h1 h2]
  refine ⟨{ device := rs.device, queue := rs.queue, clear_color := Color.GREEN,
            store := true, pipeline := rs.render_pipeline,
            vertex_range := (0, 3), instance_range := (0, 1),
            vertex_buffers_set := 0 },
    rfl, ?_, rfl, rfl, rfl, rfl, rfl, rfl, rfl⟩
  simp [Effects.submits, List.filterMap_cons]

/-- Witness for C9: the redraw in Resume, RedrawRequested submits exactly
one green-clearing frame over the concrete environment. -/
theorem C9_redraw_ready_frame_witness :
    ∃ f : Frame,
      S6.effects.gpu_ops = GpuOp.present (SurfaceState.mk 0 1).surface
          :: GpuOp.submit f
          :: GpuOp.acquireTexture (SurfaceState.mk 0 1).surface
          :: S1.effects.gpu_ops ∧
      S6.effects.submits = f :: S1.effects.submits ∧
      f.clear_color = Color.GREEN ∧
      f.pipeline = RenderPipelineDesc.mk 7 6 0 ⟨1, true⟩ ∧
      f.vertex_range = (0, 3) ∧
      f.instance_range = (0, 1) ∧
      f.vertex_buffers_set = 0 ∧
      f.device = 3 ∧ f.queue = 4 :=
  C9_redraw_ready_frame S1 S6 ⟨0, 1⟩
    { device := 3, queue := 4, shader := 5, target_format := ⟨1, true⟩,
      pipeline_layout := 6,
      render_pipeline :=
        { id := 7, layout := 6, vertex_buffer_count := 0,
          fragment_target := ⟨1, true⟩ } }
    rfl rfl rfl

/-- C10: the Suspend arm sets only the `render_state` field to `None`,
leaving the adapter and the surface_state fields (and everything else)
unchanged; consequently, along any run the adapter is requested at most
once, and a post-suspend Resume reuses the previously negotiated adapter. -/
theorem C10_suspend_only_render_state (w : World) (evs : List Event) (s : Sys)
    (hrun : runEvents w evs = some s) :
    (∀ t : Sys, step Event.suspended t
        = some { t with app := { t.app with render_state := none } }) ∧
    s.effects.adapter_requests ≤ 1 ∧
    (∀ a s1 s2, s.app.adapter = some a → step Event.suspended s = some s1 →
      step Event.resumed s1 = some s2 → s2.app.adapter = some a) := by
  refine ⟨fun t => rfl, ?_, ?_⟩
  · rw [adapter_inv_runEvents hrun]
    split <;> omega
  · intro a s1 s2 ha hsusp hres
    rw [step_suspended_eq] at hsusp
    cases Option.some_inj.mp hsusp
    rw [step_resumed_eq] at hres
    exact resume_adapter_mono
      (s := { s with app := { s.app with render_state := none } }) ha hres

/-- Witness for C10 at the concrete run with one Resume. -/
theorem C10_suspend_only_render_state_witness :
    (∀ t : Sys, step Event.suspended t
        = some { t with app := { t.app with render_state := none } }) ∧
    S1.effects.adapter_requests ≤ 1 ∧
    (∀ a s1 s2, S1.app.adapter = some a → step Event.suspended S1 = some s1 →
      step Event.resumed s1 = some s2 → s2.app.adapter = some a) :=
  C10_suspend_only_render_state w0 [Event.resumed] S1 rfl

end NaWinitWgpu
